import Mathlib

/-!
# OAuth credential-provisioning subsystem — verification development

A shallow embedding of the OAuth credential-provisioning core of the
eSIM-Management repository (`src/app/actions/anthropic-oauth.ts` and the
Gemini OAuth action module), with theorems checking the natural-language
specification against it.

Modelling conventions:
- Machine words are `Nat` reduced modulo `2 ^ 32` where the source's
  arithmetic wraps (SHA-256); bytes are `Nat` values below 256.
- Timestamps (`Date.now()`) are `Int` milliseconds passed in explicitly.
- The key-value session store and the credential store are association
  lists `List (String × α)` with `get`/`upsert`/`delete` operations
  mirroring the store contract.
- Network endpoints (token exchange, credential issuance) are oracle
  functions supplied by a `NetEnv`; every outbound call is recorded in a
  trace so that claims about requests made (or not made) are statable.
- `JSON.stringify`/`JSON.parse` round-trips on the session record are
  modelled by a tagged value (`KVVal.oauthJson`); a stored string that is
  not such a serialization is `KVVal.raw` and fails to parse.
-/

namespace ESim

/-! ## Bytes, UTF-8 and percent-encoding -/

/-- Truncate to a 32-bit word, the wrap-around of JS/typed 32-bit arithmetic. -/
def w32 (n : Nat) : Nat := n % 4294967296

/-- Uppercase hexadecimal digit for `n < 16`. -/
def hexDigit (n : Nat) : Char :=
  if n < 10 then Char.ofNat (48 + n) else Char.ofNat (55 + n)

/-- `%XX` escape of one byte. -/
def byteHex (b : Nat) : String :=
  String.mk ['%', hexDigit (b / 16), hexDigit (b % 16)]

/-- UTF-8 bytes of a Unicode code point. -/
def utf8Bytes (c : Nat) : List Nat :=
  if c < 128 then [c]
  else if c < 2048 then [192 + c / 64, 128 + c % 64]
  else if c < 65536 then [224 + c / 4096, 128 + c / 64 % 64, 128 + c % 64]
  else [240 + c / 262144, 128 + c / 4096 % 64, 128 + c / 64 % 64, 128 + c % 64]

/-- UTF-8 bytes of a string, as `Nat`s below 256. -/
def strUtf8 (s : String) : List Nat := s.data.flatMap (fun c => utf8Bytes c.toNat)

/-- Characters `URLSearchParams` serialization leaves unescaped
(`application/x-www-form-urlencoded`): alphanumerics and `*-._`. -/
def formUnreserved (c : Char) : Bool :=
  c.isAlphanum || c = '*' || c = '-' || c = '.' || c = '_'

/-- One character of `application/x-www-form-urlencoded` output:
unreserved characters pass through, space becomes `+`, anything else is
percent-escaped byte by byte. -/
def encodeChar (c : Char) : String :=
  if formUnreserved c then String.mk [c]
  else if c = ' ' then "+"
  else String.join ((utf8Bytes c.toNat).map byteHex)

/-- `application/x-www-form-urlencoded` encoding of a string, as produced by
`URLSearchParams` when `URL.toString()` serializes the query. -/
def formEncode (s : String) : String := String.join (s.data.map encodeChar)

/-! ## URL-safe base64 without padding (Node's `base64url`) -/

/-- The 64 digits of the URL-safe base64 alphabet. -/
def base64urlChar (n : Nat) : Char :=
  if n < 26 then Char.ofNat (65 + n)
  else if n < 52 then Char.ofNat (97 + (n - 26))
  else if n < 62 then Char.ofNat (48 + (n - 52))
  else if n = 62 then '-' else '_'

/-- Encode bytes three at a time into base64url digits; a trailing group of
one or two bytes yields two or three digits and no padding. -/
def base64urlChunks : List Nat → List Char
  | [] => []
  | [b1] => [base64urlChar (b1 / 4), base64urlChar (b1 % 4 * 16)]
  | [b1, b2] => [base64urlChar (b1 / 4), base64urlChar (b1 % 4 * 16 + b2 / 16),
                 base64urlChar (b2 % 16 * 4)]
  | b1 :: b2 :: b3 :: rest =>
      base64urlChar (b1 / 4) :: base64urlChar (b1 % 4 * 16 + b2 / 16) ::
      base64urlChar (b2 % 16 * 4 + b3 / 64) :: base64urlChar (b3 % 64) ::
      base64urlChunks rest

/-- `Buffer.toString('base64url')`: URL-safe alphabet, no `=` padding. -/
def base64urlNoPad (bs : List Nat) : String := String.mk (base64urlChunks bs)

/-! ## SHA-256 (`crypto.createHash('sha256')`) -/

/-- Right rotation of a 32-bit word by `n` places. -/
def rotr (n x : Nat) : Nat := w32 (x / 2 ^ n + x % 2 ^ n * 2 ^ (32 - n))

/-- Bitwise complement within 32 bits (for `x < 2 ^ 32`). -/
def not32 (x : Nat) : Nat := 4294967295 - x

def shaCh (x y z : Nat) : Nat := (x &&& y) ^^^ (not32 x &&& z)

def shaMaj (x y z : Nat) : Nat := (x &&& y) ^^^ (x &&& z) ^^^ (y &&& z)

def bigSigma0 (x : Nat) : Nat := rotr 2 x ^^^ rotr 13 x ^^^ rotr 22 x

def bigSigma1 (x : Nat) : Nat := rotr 6 x ^^^ rotr 11 x ^^^ rotr 25 x

def smallSigma0 (x : Nat) : Nat := rotr 7 x ^^^ rotr 18 x ^^^ x / 8

def smallSigma1 (x : Nat) : Nat := rotr 17 x ^^^ rotr 19 x ^^^ x / 1024

/-- The 64 SHA-256 round constants, in decimal. -/
def shaK : List Nat :=
  [1116352408, 1899447441, 3049323471, 3921009573, 961987163,
   1508970993, 2453635748, 2870763221, 3624381080, 310598401,
   607225278, 1426881987, 1925078388, 2162078206, 2614888103,
   3248222580, 3835390401, 4022224774, 264347078, 604807628,
   770255983, 1249150122, 1555081692, 1996064986, 2554220882,
   2821834349, 2952996808, 3210313671, 3336571891, 3584528711,
   113926993, 338241895, 666307205, 773529912, 1294757372,
   1396182291, 1695183700, 1986661051, 2177026350, 2456956037,
   2730485921, 2820302411, 3259730800, 3345764771, 3516065817,
   3600352804, 4094571909, 275423344, 430227734, 506948616,
   659060556, 883997877, 958139571, 1322822218, 1537002063,
   1747873779, 1955562222, 2024104815, 2227730452, 2361852424,
   2428436474, 2756734187, 3204031479, 3329325298]

/-- The eight working variables of the compression function. -/
structure Hash8 where
  a : Nat
  b : Nat
  c : Nat
  d : Nat
  e : Nat
  f : Nat
  g : Nat
  h : Nat
  deriving DecidableEq, Repr

/-- SHA-256 initial hash value, in decimal. -/
def shaH0 : Hash8 :=
  ⟨1779033703, 3144134277, 1013904242, 2773480762,
   1359893119, 2600822924, 528734635, 1541459225⟩

/-- One round of the SHA-256 compression function, consuming one
schedule word and its round constant. -/
def compressStep (s : Hash8) (wk : Nat × Nat) : Hash8 :=
  let t1 := w32 (s.h + bigSigma1 s.e + shaCh s.e s.f s.g + wk.1 + wk.2)
  let t2 := w32 (bigSigma0 s.a + shaMaj s.a s.b s.c)
  ⟨w32 (t1 + t2), s.a, s.b, s.c, w32 (s.d + t1), s.e, s.f, s.g⟩

/-- Extend a message schedule by `k` further words. -/
def extendSchedule : Nat → List Nat → List Nat
  | 0, w => w
  | k + 1, w =>
      let t := w.length
      extendSchedule k
        (w ++ [w32 (smallSigma1 (w.getD (t - 2) 0) + w.getD (t - 7) 0 +
                    smallSigma0 (w.getD (t - 15) 0) + w.getD (t - 16) 0)])

/-- Big-endian 32-bit words from bytes (input length a multiple of 4). -/
def bytesToWords : List Nat → List Nat
  | b0 :: b1 :: b2 :: b3 :: rest =>
      (b0 * 16777216 + b1 * 65536 + b2 * 256 + b3) :: bytesToWords rest
  | _ => []

/-- Split a word list into 16-word blocks; the fuel bounds the number of
blocks and is structurally decreasing (the word list itself shrinks by 16
per step, so `length` fuel always suffices). -/
def wordsToBlocksAux : Nat → List Nat → List (List Nat)
  | 0, _ => []
  | _ + 1, [] => []
  | n + 1, w :: ws => ((w :: ws).take 16) :: wordsToBlocksAux n ((w :: ws).drop 16)

/-- Split a word list into 16-word blocks. -/
def wordsToBlocks (l : List Nat) : List (List Nat) := wordsToBlocksAux l.length l

/-- Process one 512-bit block: expand the schedule to 64 words, run the
compression rounds, and add the result into the chaining value. -/
def processBlock (hv : Hash8) (block : List Nat) : Hash8 :=
  let w := extendSchedule 48 block
  let s := (w.zip shaK).foldl compressStep hv
  ⟨w32 (hv.a + s.a), w32 (hv.b + s.b), w32 (hv.c + s.c), w32 (hv.d + s.d),
   w32 (hv.e + s.e), w32 (hv.f + s.f), w32 (hv.g + s.g), w32 (hv.h + s.h)⟩

/-- SHA-256 padding: `0x80`, zeros to 56 mod 64, then the 64-bit
big-endian bit length. -/
def shaPad (msg : List Nat) : List Nat :=
  let len := msg.length
  let zeros := (64 + 55 - len % 64) % 64
  let bits := len * 8
  msg ++ [128] ++ List.replicate zeros 0 ++
    [bits / 2 ^ 56 % 256, bits / 2 ^ 48 % 256, bits / 2 ^ 40 % 256,
     bits / 2 ^ 32 % 256, bits / 2 ^ 24 % 256, bits / 2 ^ 16 % 256,
     bits / 2 ^ 8 % 256, bits % 256]

/-- Big-endian bytes of a 32-bit word. -/
def wordBE (w : Nat) : List Nat :=
  [w / 16777216 % 256, w / 65536 % 256, w / 256 % 256, w % 256]

/-- SHA-256 digest (32 bytes) of a byte message. -/
def sha256Bytes (msg : List Nat) : List Nat :=
  let hv := (wordsToBlocks (bytesToWords (shaPad msg))).foldl processBlock shaH0
  wordBE hv.a ++ wordBE hv.b ++ wordBE hv.c ++ wordBE hv.d ++
  wordBE hv.e ++ wordBE hv.f ++ wordBE hv.g ++ wordBE hv.h

/-! ## PKCE generator

`generatePKCE` in the source draws 32 bytes from `crypto.randomBytes`; the
entropy source is external, so the bytes are a parameter here. -/

/-- The verifier/challenge pair of `generatePKCE`. -/
structure PKCE where
  verifier : String
  challenge : String
  deriving DecidableEq, Repr

/-- `generatePKCE`: verifier is the base64url (no padding) of the random
bytes; challenge is the base64url of the SHA-256 of the verifier string. -/
def generatePKCE (randomBytes : List Nat) : PKCE :=
  let verifier := base64urlNoPad randomBytes
  let challenge := base64urlNoPad (sha256Bytes (strUtf8 verifier))
  { verifier := verifier, challenge := challenge }

/-- `generateState`: 32 random bytes, base64url encoded without padding. -/
def generateState (randomBytes : List Nat) : String := base64urlNoPad randomBytes

/-! ## JavaScript string helpers used by `completeAnthropicOAuth` -/

/-- `String.prototype.split` with a one-character separator: all parts, in
order, including empty ones (`"".split(c)` is `[""]`). -/
def jsSplit (sep : Char) : List Char → List (List Char)
  | [] => [[]]
  | c :: rest =>
      if c = sep then [] :: jsSplit sep rest
      else
        match jsSplit sep rest with
        | [] => [[c]]
        | p :: ps => (c :: p) :: ps

/-- The parts of `s.split('#')` as strings. -/
def splitHash (s : String) : List String := (jsSplit '#' s.data).map String.mk

/-- JavaScript `a || b` on an optional string: `none` and the empty string
are falsy and fall through to `b`. -/
def jsOrElse (a : Option String) (b : String) : String :=
  match a with
  | none => b
  | some s => if s = "" then b else s

/-! ## Stores

The session store (`keyValue`) and credential store (`connection`) expose
single-key `get`/`upsert`/`delete`; both are association lists here. -/

/-- First value stored under `k`, if any (`get`/`getByProvider`). -/
def storeGet {α : Type} (l : List (String × α)) (k : String) : Option α :=
  (l.find? (fun p => p.1 == k)).map (·.2)

/-- Replace the first row keyed `k`, or append a new one (`upsert`). -/
def storeUpsert {α : Type} : List (String × α) → String → α → List (String × α)
  | [], k, v => [(k, v)]
  | (k', v') :: rest, k, v =>
      if k' == k then (k, v) :: rest else (k', v') :: storeUpsert rest k v

/-- Remove every row keyed `k` (`delete`). -/
def storeDelete {α : Type} (l : List (String × α)) (k : String) : List (String × α) :=
  l.filter (fun p => !(p.1 == k))

/-! ## Data model -/

/-- The in-flight attempt record `{verifier, state, timestamp}` that
`startAnthropicOAuth` serializes into the key-value store. -/
structure OAuthData where
  verifier : String
  state : String
  timestamp : Int
  deriving DecidableEq, Repr

/-- A value in the key-value session store: either the JSON serialization
of an `OAuthData` (which `JSON.parse` recovers exactly), or some other
string on which `JSON.parse` does not yield a session record. -/
inductive KVVal where
  | oauthJson (d : OAuthData)
  | raw (s : String)
  deriving DecidableEq, Repr

/-- `JSON.parse` of a stored session value, `none` when it throws. -/
def parseOAuthData : KVVal → Option OAuthData
  | .oauthJson d => some d
  | .raw _ => none

/-- Credential metadata as stored JSON-encoded in the `google_Oauth`
column; every field is optional, as JSON object fields are. `hint` models
the source's partial-key-hint field. -/
structure Metadata where
  mtype : Option String
  key_id : Option String
  key_name : Option String
  created_at : Option String
  hint : Option String
  deriving DecidableEq, Repr

/-- The `google_Oauth` column: empty string (falsy in JS), a JSON
serialization of a `Metadata`, or a non-empty string `JSON.parse` rejects. -/
inductive MetaStr where
  | empty
  | jsonMeta (m : Metadata)
  | invalid (s : String)
  deriving DecidableEq, Repr

/-- One credential-store row: the secret (`apikey`) and the metadata blob. -/
structure ConnRow where
  apikey : String
  google_Oauth : MetaStr
  deriving DecidableEq, Repr

/-- The shared mutable state: credential store and key-value session store. -/
structure DB where
  conn : List (String × ConnRow)
  kv : List (String × KVVal)
  deriving DecidableEq, Repr

/-- Provider configuration resolved by the external config loader. -/
structure OAuthConfig where
  clientId : String
  authorizeUrl : String
  tokenUrl : String
  apiKeyUrl : String
  redirectUri : String
  scopes : List String
  deriving DecidableEq, Repr

/-! ## Network model -/

/-- The JSON body POSTed to the token endpoint. -/
structure TokenPayload where
  grant_type : String
  code : String
  redirect_uri : String
  client_id : String
  code_verifier : String
  state : String
  deriving DecidableEq, Repr

/-- Token endpoint success body. -/
structure TokenResponse where
  access_token : String
  refresh_token : Option String
  expires_in : Int
  deriving DecidableEq, Repr

/-- Issuance endpoint success body; `key_hint` models the source's
partial-key-hint field. -/
structure ApiKeyResponse where
  raw_key : String
  id : String
  name : String
  created_at : String
  key_hint : String
  status : String
  deriving DecidableEq, Repr

/-- Outcome of the token-exchange POST: parsed 2xx body, or a non-2xx /
thrown failure carrying the response text. -/
inductive TokenOutcome where
  | ok (t : TokenResponse)
  | fail (body : String)

/-- Outcome of the credential-issuance POST. -/
inductive ApiKeyOutcome where
  | ok (k : ApiKeyResponse)
  | fail (body : String)

/-- The network environment: what each endpoint answers. -/
structure NetEnv where
  tokenEndpoint : TokenPayload → TokenOutcome
  apiKeyEndpoint : String → ApiKeyOutcome

/-- One recorded outbound call: the token exchange with its request body,
or the issuance call with its bearer token. -/
inductive NetCall where
  | tokenCall (p : TokenPayload)
  | apiKeyCall (bearer : String)
  deriving DecidableEq, Repr

/-! ## `startAnthropicOAuth` -/

/-- The session-store key holding the in-flight Anthropic attempt. -/
def oauthDataKey : String := "anthropic-oauth-data"

/-- The query parameters `startAnthropicOAuth` sets on the authorization
URL, in source order: the source sets `code=true` first, then the OAuth
parameters. -/
def authParams (cfg : OAuthConfig) (challenge st : String) : List (String × String) :=
  [("code", "true"),
   ("client_id", cfg.clientId),
   ("response_type", "code"),
   ("redirect_uri", cfg.redirectUri),
   ("scope", String.intercalate " " cfg.scopes),
   ("state", st),
   ("code_challenge", challenge),
   ("code_challenge_method", "S256")]

/-- `URLSearchParams` serialization: `k=v` pairs joined by `&`, names and
values form-encoded. -/
def serializeParams : List (String × String) → String
  | [] => ""
  | [(k, v)] => formEncode k ++ "=" ++ formEncode v
  | (k, v) :: rest => formEncode k ++ "=" ++ formEncode v ++ "&" ++ serializeParams rest

/-- `URL.toString()` for a base URL with no prior query or fragment. -/
def buildAuthUrl (cfg : OAuthConfig) (challenge st : String) : String :=
  cfg.authorizeUrl ++ "?" ++ serializeParams (authParams cfg challenge st)

/-- Result of `startAnthropicOAuth` on its success path (configuration
loading and entropy are external inputs here, so the catch branch for
their failure is not reachable in the model). -/
structure StartResult where
  success : Bool
  authUrl : String
  verifier : String
  state : String
  deriving DecidableEq, Repr

/-- `startAnthropicOAuth`: generate the PKCE pair and state from the given
random bytes, build the authorization URL, persist the attempt record
(verifier, state, `Date.now()`) under `oauthDataKey`, and return
`{success, authUrl, verifier, state}`. -/
def startAnthropicOAuth (cfg : OAuthConfig) (pkceBytes stateBytes : List Nat)
    (now : Int) (db : DB) : StartResult × DB :=
  let pkce := generatePKCE pkceBytes
  let st := generateState stateBytes
  let url := buildAuthUrl cfg pkce.challenge st
  let oauthData : OAuthData := { verifier := pkce.verifier, state := st, timestamp := now }
  ({ success := true, authUrl := url, verifier := pkce.verifier, state := st },
   { db with kv := storeUpsert db.kv oauthDataKey (.oauthJson oauthData) })

/-! ## `completeAnthropicOAuth` -/

/-- Result shape of `completeAnthropicOAuth`. -/
structure CompleteResult where
  success : Bool
  apiKey : Option String
  keyName : Option String
  error : Option String
  deriving DecidableEq, Repr

/-- Failure result with only an error message. -/
def completeFail (msg : String) : CompleteResult :=
  { success := false, apiKey := none, keyName := none, error := some msg }

/-- `completeAnthropicOAuth authCode`, returning the result, the updated
state, and the trace of outbound network calls. Follows the source:
missing-code guard; split the possibly composite code on `#`
(destructuring keeps parts 0 and 1 of the split); session lookup, JSON
parse, 10-minute expiry check with deletion on expiry; token exchange;
credential issuance; credential upsert; unconditional delete on the
success path and on every thrown (exchange/issuance) failure. The early
`return`s for missing code, missing session, invalid session data and
expiry do not pass through the catch block. -/
def completeAnthropicOAuth (cfg : OAuthConfig) (env : NetEnv) (now : Int)
    (authCode : String) (db : DB) : CompleteResult × DB × List NetCall :=
  if authCode = "" then
    (completeFail "Missing authorization code", db, [])
  else
    let parts := splitHash authCode
    let code := parts.headD ""
    let receivedState : Option String := parts[1]?
    match storeGet db.kv oauthDataKey with
    | none =>
        (completeFail "OAuth session not found. Please start the authentication process again.",
         db, [])
    | some storedData =>
        match parseOAuthData storedData with
        | none => (completeFail "Invalid OAuth session data", db, [])
        | some oauthData =>
            if now - oauthData.timestamp > 600000 then
              (completeFail "OAuth session expired. Please try again.",
               { db with kv := storeDelete db.kv oauthDataKey }, [])
            else
              let tokenPayload : TokenPayload :=
                { grant_type := "authorization_code"
                  code := code
                  redirect_uri := cfg.redirectUri
                  client_id := cfg.clientId
                  code_verifier := oauthData.verifier
                  state := jsOrElse receivedState oauthData.state }
              match env.tokenEndpoint tokenPayload with
              | .fail body =>
                  (completeFail ("Token exchange failed: " ++ body),
                   { db with kv := storeDelete db.kv oauthDataKey },
                   [.tokenCall tokenPayload])
              | .ok tokenData =>
                  match env.apiKeyEndpoint tokenData.access_token with
                  | .fail body =>
                      (completeFail ("API key creation failed: " ++ body),
                       { db with kv := storeDelete db.kv oauthDataKey },
                       [.tokenCall tokenPayload, .apiKeyCall tokenData.access_token])
                  | .ok apiKeyData =>
                      let row : ConnRow :=
                        { apikey := apiKeyData.raw_key
                          google_Oauth := .jsonMeta
                            { mtype := some "oauth_generated"
                              key_id := some apiKeyData.id
                              key_name := some apiKeyData.name
                              created_at := some apiKeyData.created_at
                              hint := some apiKeyData.key_hint } }
                      ({ success := true, apiKey := some apiKeyData.raw_key,
                         keyName := some apiKeyData.name, error := none },
                       { conn := storeUpsert db.conn "Anthropic" row,
                         kv := storeDelete db.kv oauthDataKey },
                       [.tokenCall tokenPayload, .apiKeyCall tokenData.access_token])

/-! ## `checkAnthropicAuthStatus` -/

/-- Result shape of `checkAnthropicAuthStatus`; fields absent in the
JavaScript object are `none`. -/
structure StatusResult where
  authenticated : Bool
  isOAuthGenerated : Option Bool
  keyName : Option String
  keyHint : Option String
  deriving DecidableEq, Repr

/-- `JSON.parse` of the metadata column wrapped in the source's
`try/catch {}`: `null` on empty (falsy) or unparseable input. -/
def parseMeta : MetaStr → Option Metadata
  | .empty => none
  | .jsonMeta m => some m
  | .invalid _ => none

/-- The read `checkAnthropicAuthStatus` performs: look up the Anthropic
credential row; unauthenticated when the row is missing or its `apikey`
is empty (falsy); otherwise the flags and hints come from the parsed
metadata. -/
def statusRead (conn : List (String × ConnRow)) : StatusResult :=
  match storeGet conn "Anthropic" with
  | none => { authenticated := false, isOAuthGenerated := none,
              keyName := none, keyHint := none }
  | some row =>
      if row.apikey = "" then
        { authenticated := false, isOAuthGenerated := none,
          keyName := none, keyHint := none }
      else
        let metadata := parseMeta row.google_Oauth
        { authenticated := true
          isOAuthGenerated := some (metadata.bind (·.mtype) == some "oauth_generated")
          keyName := metadata.bind (·.key_name)
          keyHint := metadata.bind (·.hint) }

/-- `checkAnthropicAuthStatus`: the source only calls
`connection.getByProvider`, so the state passes through unchanged. -/
def checkAnthropicAuthStatus (db : DB) : StatusResult × DB :=
  (statusRead db.conn, db)

/-! ## `logoutAnthropicOAuth` -/

/-- Result shape of `logoutAnthropicOAuth` (the catch branch needs a store
failure, which the model's total stores cannot produce). -/
structure LogoutResult where
  success : Bool
  deriving DecidableEq, Repr

/-- `logoutAnthropicOAuth`: only when the stored metadata parses and marks
the key `oauth_generated` does it upsert the row with empty `apikey` and
empty metadata; a missing row, empty or unparseable metadata, or any other
metadata type leaves the store untouched. -/
def logoutAnthropicOAuth (db : DB) : LogoutResult × DB :=
  match storeGet db.conn "Anthropic" with
  | none => ({ success := true }, db)
  | some row =>
      match row.google_Oauth with
      | .empty => ({ success := true }, db)
      | .invalid _ => ({ success := true }, db)
      | .jsonMeta m =>
          if m.mtype = some "oauth_generated" then
            ({ success := true },
             { db with conn :=
                 storeUpsert db.conn "Anthropic" { apikey := "", google_Oauth := .empty } })
          else
            ({ success := true }, db)

/-! ## Gemini OAuth actions (`src/unnamed/part_000`)

`GeminiOAuthService` lives outside the provided sources, so its two calls
are oracle outcomes: `isAuthenticated` and `authWithWeb` may each resolve
or reject. The pending-login promise is abstracted to an identifier. -/

/-- What `authWithWeb` resolves to: the authorization URL and the pending
completion signal (abstracted to an id). -/
structure WebAuth where
  authUrl : String
  promiseId : Nat
  deriving DecidableEq, Repr

/-- Oracle for the external `GeminiOAuthService` calls; `Except` carries a
rejection's message. -/
structure GeminiSvc where
  isAuthenticated : Except String Bool
  authWithWeb : Except String WebAuth

/-- Which service calls `startGeminiOAuthLogin` performed. -/
inductive GeminiCall where
  | isAuthCall
  | authWithWebCall
  deriving DecidableEq, Repr

/-- Result shape of `startGeminiOAuthLogin`. -/
structure GeminiStartResult where
  success : Bool
  authUrl : Option String
  message : Option String
  error : Option String
  deriving DecidableEq, Repr

/-- `startGeminiOAuthLogin`: already-authenticated short-circuit, otherwise
`authWithWeb` and registration of the completion promise in the in-memory
map keyed by the auth URL (the deferred five-minute cleanup timer is a
later effect, not part of this call's transition). Rejections fall to the
catch branch returning `{success:false, error}`. -/
def startGeminiOAuthLogin (svc : GeminiSvc) (authPromises : List (String × Nat)) :
    GeminiStartResult × List (String × Nat) × List GeminiCall :=
  match svc.isAuthenticated with
  | .error e =>
      ({ success := false, authUrl := none, message := none, error := some e },
       authPromises, [.isAuthCall])
  | .ok true =>
      ({ success := true, authUrl := none, message := some "Already authenticated",
         error := none }, authPromises, [.isAuthCall])
  | .ok false =>
      match svc.authWithWeb with
      | .error e =>
          ({ success := false, authUrl := none, message := none, error := some e },
           authPromises, [.isAuthCall, .authWithWebCall])
      | .ok w =>
          ({ success := true, authUrl := some w.authUrl,
             message := some "Open the URL in your browser to authenticate",
             error := none },
           storeUpsert authPromises w.authUrl w.promiseId,
           [.isAuthCall, .authWithWebCall])

/-! ## Derived predicates and fixtures -/

/-- The URL-safe base64 alphabet as a character list. -/
def base64urlAlphabet : List Char :=
  "ABCDEFGHIJKLMNOPQRSTUVWXYZabcdefghijklmnopqrstuvwxyz0123456789-_".data

/-- Whether the stored Anthropic credential is flow-provisioned: its
metadata parses and has type `oauth_generated` — exactly the condition
under which `logoutAnthropicOAuth` clears the credential. -/
def flowProvisioned (db : DB) : Bool :=
  match storeGet db.conn "Anthropic" with
  | none => false
  | some row =>
      match row.google_Oauth with
      | .jsonMeta m => m.mtype == some "oauth_generated"
      | _ => false

/-- A concrete provider configuration for witnesses and counterexamples. -/
def cfg0 : OAuthConfig :=
  { clientId := "client-1"
    authorizeUrl := "https://claude.ai/oauth/authorize"
    tokenUrl := "https://console.anthropic.com/v1/oauth/token"
    apiKeyUrl := "https://api.anthropic.com/api/oauth/create_api_key"
    redirectUri := "https://console.anthropic.com/oauth/code/callback"
    scopes := ["org:create_api_key", "user:profile"] }

/-- A network environment whose endpoints always fail. -/
def env0 : NetEnv :=
  { tokenEndpoint := fun _ => .fail "refused"
    apiKeyEndpoint := fun _ => .fail "refused" }

/-- The mocked endpoints of the spec's happy-path scenario: the token
endpoint returns `{access_token:"tok", expires_in:3600}` and the issuance
endpoint returns the fixed key record; its `status` field, which the
scenario leaves unspecified, is a parameter. -/
def happyEnv (stat : String) : NetEnv :=
  { tokenEndpoint := fun _ =>
      .ok { access_token := "tok", refresh_token := none, expires_in := 3600 }
    apiKeyEndpoint := fun _ =>
      .ok { raw_key := "sk-abc", id := "1", name := "n", created_at := "2024-01-01",
            key_hint := "sk-...c", status := stat } }

/-- A state holding one live attempt (`verifier "v"`, `state "st"`,
created at time 0) and no credentials. -/
def dbAttempt : DB :=
  { conn := [], kv := [(oauthDataKey, .oauthJson { verifier := "v", state := "st", timestamp := 0 })] }

/-- A state whose stored metadata display name coincides with the raw
secret — the pathological store refuting "no returned field equals the
secret". -/
def dbLeak : DB :=
  { conn := [("Anthropic",
      { apikey := "sk-secret"
        google_Oauth := .jsonMeta
          { mtype := some "oauth_generated", key_id := none, key_name := some "sk-secret",
            created_at := none, hint := some "sk-...t" } })]
    kv := [] }

/-- A state whose Anthropic credential is flow-provisioned. -/
def dbFlow : DB :=
  { conn := [("Anthropic",
      { apikey := "sk-live"
        google_Oauth := .jsonMeta
          { mtype := some "oauth_generated", key_id := some "1", key_name := some "n",
            created_at := some "2024-01-01", hint := some "sk-...e" } })]
    kv := [] }

/-- A state whose Anthropic credential was entered manually (no metadata). -/
def dbManual : DB :=
  { conn := [("Anthropic", { apikey := "sk-manual", google_Oauth := .empty })], kv := [] }

/-! ## FIPS 180-4 test vectors anchoring the SHA-256 model -/

/-- SHA-256 of `"abc"`, bytes in decimal. -/
theorem sha256_abc :
    sha256Bytes (strUtf8 "abc") =
    [186, 120, 22, 191, 143, 1, 207, 234, 65, 65,
     64, 222, 93, 174, 34, 35, 176, 3, 97, 163,
     150, 23, 122, 156, 180, 16, 255, 97, 242, 0,
     21, 173] := by decide

/-- SHA-256 of the empty message, bytes in decimal. -/
theorem sha256_empty :
    sha256Bytes [] =
    [227, 176, 196, 66, 152, 252, 28, 20, 154, 251,
     244, 200, 153, 111, 185, 36, 39, 174, 65, 228,
     100, 155, 147, 76, 164, 149, 153, 27, 120, 82,
     184, 85] := by decide

/-! ## Store laws -/

theorem storeGet_upsert_self {α : Type} (l : List (String × α)) (k : String) (v : α) :
    storeGet (storeUpsert l k v) k = some v := by
  induction l with
  | nil => simp [storeGet, storeUpsert]
  | cons p rest ih =>
      by_cases h : p.1 = k
      · simp [storeGet, storeUpsert, h]
      · simpa [storeGet, storeUpsert, h, List.find?] using ih

theorem storeGet_delete_self {α : Type} (l : List (String × α)) (k : String) :
    storeGet (storeDelete l k) k = none := by
  induction l with
  | nil => simp [storeGet, storeDelete]
  | cons p rest ih =>
      by_cases h : p.1 = k
      · simp only [storeDelete, List.filter_cons] at ih ⊢
        simp [h, ih]
      · simp only [storeDelete, List.filter_cons] at ih ⊢
        simp [storeGet, List.find?, h, ih]

/-! ## base64url laws -/

theorem base64urlChar_mem (n : Nat) : base64urlChar n ∈ base64urlAlphabet := by
  by_cases h : n < 64
  · revert h
    exact fun h => by
      interval_cases n <;> decide
  · have h26 : ¬ n < 26 := by omega
    have h52 : ¬ n < 52 := by omega
    have h62 : ¬ n < 62 := by omega
    have h62e : ¬ n = 62 := by omega
    simp [base64urlChar, h26, h52, h62, h62e, base64urlAlphabet]

theorem base64urlChunks_mem (bs : List Nat) :
    ∀ c ∈ base64urlChunks bs, c ∈ base64urlAlphabet := by
  induction bs using base64urlChunks.induct with
  | case1 => simp [base64urlChunks]
  | case2 b1 =>
      simp only [base64urlChunks, List.mem_cons, List.not_mem_nil, or_false]
      rintro c (rfl | rfl) <;> exact base64urlChar_mem _
  | case3 b1 b2 =>
      simp only [base64urlChunks, List.mem_cons, List.not_mem_nil, or_false]
      rintro c (rfl | rfl | rfl) <;> exact base64urlChar_mem _
  | case4 b1 b2 b3 rest ih =>
      simp only [base64urlChunks, List.mem_cons]
      rintro c (rfl | rfl | rfl | rfl | hm)
      · exact base64urlChar_mem _
      · exact base64urlChar_mem _
      · exact base64urlChar_mem _
      · exact base64urlChar_mem _
      · exact ih c hm

theorem base64urlChunks_length (bs : List Nat) :
    (base64urlChunks bs).length = (4 * bs.length + 2) / 3 := by
  induction bs using base64urlChunks.induct with
  | case1 => simp [base64urlChunks]
  | case2 b1 => simp [base64urlChunks]
  | case3 b1 b2 => simp [base64urlChunks]
  | case4 b1 b2 b3 rest ih =>
      simp only [base64urlChunks, List.length_cons, ih]
      omega

/-! ## SHA-256 output shape -/

theorem wordBE_lt (w : Nat) : ∀ b ∈ wordBE w, b < 256 := by
  simp only [wordBE, List.mem_cons, List.not_mem_nil, or_false]
  rintro b (rfl | rfl | rfl | rfl) <;> omega

theorem sha256Bytes_length (msg : List Nat) : (sha256Bytes msg).length = 32 := by
  simp [sha256Bytes, wordBE]

theorem sha256Bytes_lt (msg : List Nat) : ∀ b ∈ sha256Bytes msg, b < 256 := by
  intro b hb
  simp only [sha256Bytes, List.mem_append] at hb
  rcases hb with ((((((h | h) | h) | h) | h) | h) | h) | h <;> exact wordBE_lt _ b h

/-! ## `split('#')` characterization -/

theorem jsSplit_ne_nil (sep : Char) (l : List Char) : jsSplit sep l ≠ [] := by
  induction l with
  | nil => simp [jsSplit]
  | cons c rest ih =>
      by_cases h : c = sep
      · simp [jsSplit, h]
      · simp only [jsSplit, if_neg h]
        cases hr : jsSplit sep rest <;> simp

theorem jsSplit_head (sep : Char) (l : List Char) :
    (jsSplit sep l).headD [] = l.takeWhile (fun c => c != sep) := by
  induction l with
  | nil => simp [jsSplit]
  | cons c rest ih =>
      by_cases h : c = sep
      · simp [jsSplit, h, List.takeWhile]
      · simp only [jsSplit, if_neg h]
        cases hr : jsSplit sep rest with
        | nil => exact absurd hr (jsSplit_ne_nil sep rest)
        | cons p ps =>
            rw [hr] at ih
            simp only [List.headD_cons] at ih
            have hne : (c != sep) = true := by simp [h]
            simp [List.takeWhile, hne, ih]

theorem jsSplit_second (sep : Char) (l : List Char) :
    (jsSplit sep l)[1]? =
      if sep ∈ l then
        some (((l.dropWhile (fun c => c != sep)).drop 1).takeWhile (fun c => c != sep))
      else none := by
  induction l with
  | nil => simp [jsSplit]
  | cons c rest ih =>
      by_cases h : c = sep
      · subst h
        simp only [jsSplit, if_pos rfl, List.mem_cons, true_or, if_pos]
        cases hr : jsSplit c rest with
        | nil => exact absurd hr (jsSplit_ne_nil c rest)
        | cons p ps =>
            have hh := jsSplit_head c rest
            rw [hr] at hh
            simp only [List.headD_cons] at hh
            simp [hh, List.dropWhile, List.takeWhile]
      · have hsc : ¬ sep = c := fun hc => h hc.symm
        have hne : (c != sep) = true := by simp [h]
        simp only [jsSplit, if_neg h]
        cases hr : jsSplit sep rest with
        | nil => exact absurd hr (jsSplit_ne_nil sep rest)
        | cons p ps =>
            rw [hr] at ih
            have hL : ((c :: p) :: ps)[1]? = (p :: ps)[1]? := by simp
            rw [hL, ih]
            simp only [List.dropWhile_cons, hne, if_true]
            by_cases hm : sep ∈ rest
            · rw [if_pos hm, if_pos (List.mem_cons_of_mem c hm)]
            · rw [if_neg hm, if_neg (by
                intro hc
                rcases List.mem_cons.mp hc with hc | hc
                · exact hsc hc
                · exact hm hc)]

theorem splitHash_headD (s : String) :
    (splitHash s).headD "" = String.mk (s.data.takeWhile (fun c => c != '#')) := by
  unfold splitHash
  cases hr : jsSplit '#' s.data with
  | nil => exact absurd hr (jsSplit_ne_nil '#' s.data)
  | cons p ps =>
      have hh := jsSplit_head '#' s.data
      rw [hr] at hh
      simp only [List.headD_cons] at hh
      simp [hh]

/-- Prepending keeps a suffix. -/
theorem append_keeps_suffix (a : String) {s lit : String} (h : ∃ p, s = p ++ lit) :
    ∃ p, a ++ s = p ++ lit := by
  obtain ⟨p, hp⟩ := h
  exact ⟨a ++ p, by rw [hp, String.append_assoc]⟩

/-- The serialized authorization URL ends with the
`code_challenge_method=S256` parameter, for every configuration. -/
theorem buildAuthUrl_suffix (cfg : OAuthConfig) (challenge st : String) :
    ∃ pre, buildAuthUrl cfg challenge st = pre ++ "code_challenge_method=S256" := by
  show ∃ pre, cfg.authorizeUrl ++ "?" ++ _ = pre ++ _
  apply append_keeps_suffix
  apply append_keeps_suffix
  apply append_keeps_suffix
  apply append_keeps_suffix
  apply append_keeps_suffix
  apply append_keeps_suffix
  apply append_keeps_suffix
  apply append_keeps_suffix
  exact ⟨"", by decide⟩

theorem splitHash_second (s : String) :
    (splitHash s)[1]? =
      if '#' ∈ s.data then
        some (String.mk
          (((s.data.dropWhile (fun c => c != '#')).drop 1).takeWhile (fun c => c != '#')))
      else none := by
  unfold splitHash
  rw [List.getElem?_map, jsSplit_second]
  by_cases h : '#' ∈ s.data <;> simp [h]

/-! ## Branch lemmas for `completeAnthropicOAuth` -/

/-- With a non-empty code and a stored, parseable attempt, the attempt is
deleted no matter how the rest of the call goes: on expiry, on either
network failure, and on success. -/
theorem complete_deletes_stored_attempt (cfg : OAuthConfig) (env : NetEnv)
    (now : Int) (authCode : String) (db : DB) (d : OAuthData)
    (hcode : authCode ≠ "")
    (hstored : storeGet db.kv oauthDataKey = some (.oauthJson d)) :
    storeGet (completeAnthropicOAuth cfg env now authCode db).2.1.kv oauthDataKey = none := by
  unfold completeAnthropicOAuth
  rw [if_neg hcode, hstored]
  simp only [parseOAuthData]
  by_cases hexp : now - d.timestamp > 600000
  · rw [if_pos hexp]
    exact storeGet_delete_self _ _
  · rw [if_neg hexp]
    split
    · exact storeGet_delete_self _ _
    · split
      · exact storeGet_delete_self _ _
      · exact storeGet_delete_self _ _

/-- The expiry branch: non-empty code, stored attempt, more than ten
minutes old. The call fails with the session-expired message, deletes the
attempt, makes no network call and leaves the credential store alone. -/
theorem complete_expired_branch (cfg : OAuthConfig) (env : NetEnv)
    (now : Int) (authCode : String) (db : DB) (d : OAuthData)
    (hcode : authCode ≠ "")
    (hstored : storeGet db.kv oauthDataKey = some (.oauthJson d))
    (hexp : now - d.timestamp > 600000) :
    completeAnthropicOAuth cfg env now authCode db =
      (completeFail "OAuth session expired. Please try again.",
       { db with kv := storeDelete db.kv oauthDataKey }, []) := by
  unfold completeAnthropicOAuth
  rw [if_neg hcode, hstored]
  simp only [parseOAuthData]
  rw [if_pos hexp]

/-- The success branch against constant mock endpoints. -/
theorem complete_success_branch (cfg : OAuthConfig) (env : NetEnv)
    (now : Int) (authCode : String) (db : DB) (d : OAuthData)
    (t : TokenResponse) (k : ApiKeyResponse)
    (hcode : authCode ≠ "")
    (hstored : storeGet db.kv oauthDataKey = some (.oauthJson d))
    (hfresh : ¬ now - d.timestamp > 600000)
    (htok : env.tokenEndpoint = fun _ => .ok t)
    (hkey : env.apiKeyEndpoint = fun _ => .ok k) :
    completeAnthropicOAuth cfg env now authCode db =
      ({ success := true, apiKey := some k.raw_key, keyName := some k.name, error := none },
       { conn := storeUpsert db.conn "Anthropic"
           { apikey := k.raw_key
             google_Oauth := .jsonMeta
               { mtype := some "oauth_generated", key_id := some k.id,
                 key_name := some k.name, created_at := some k.created_at,
                 hint := some k.key_hint } }
         kv := storeDelete db.kv oauthDataKey },
       [.tokenCall
          { grant_type := "authorization_code"
            code := (splitHash authCode).headD ""
            redirect_uri := cfg.redirectUri
            client_id := cfg.clientId
            code_verifier := d.verifier
            state := jsOrElse (splitHash authCode)[1]? d.state },
        .apiKeyCall t.access_token]) := by
  unfold completeAnthropicOAuth
  rw [if_neg hcode, hstored]
  simp only [parseOAuthData]
  rw [if_neg hfresh, htok, hkey]

/-! ## Logout branch lemmas -/

/-- When the credential is not flow-provisioned, `logoutAnthropicOAuth`
leaves the state untouched. -/
theorem logout_of_not_flow (db : DB) (h : flowProvisioned db = false) :
    (logoutAnthropicOAuth db).2 = db := by
  unfold flowProvisioned at h
  unfold logoutAnthropicOAuth
  split
  · rfl
  · rename_i row heq
    rw [heq] at h
    simp only at h
    split
    · rfl
    · rfl
    · rename_i m hgo
      rw [hgo] at h
      simp only at h
      have hne : ¬ m.mtype = some "oauth_generated" := by simpa using h
      rw [if_neg hne]

/-- When the credential is flow-provisioned, `logoutAnthropicOAuth`
replaces the Anthropic row with an empty secret and empty metadata. -/
theorem logout_of_flow (db : DB) (h : flowProvisioned db = true) :
    (logoutAnthropicOAuth db).2 =
      { db with conn :=
          storeUpsert db.conn "Anthropic" { apikey := "", google_Oauth := .empty } } := by
  unfold flowProvisioned at h
  unfold logoutAnthropicOAuth
  split
  · rename_i heq
    rw [heq] at h
    simp at h
  · rename_i row heq
    rw [heq] at h
    simp only at h
    split
    · rename_i hgo
      rw [hgo] at h
      simp at h
    · rename_i s hgo
      rw [hgo] at h
      simp at h
    · rename_i m hgo
      rw [hgo] at h
      simp only at h
      have hyes : m.mtype = some "oauth_generated" := by simpa using h
      rw [if_pos hyes]

/-! ## Claims -/

/-- C2 (counterexample): calling `completeAnthropicOAuth` with the empty
code while an attempt is stored fails — but leaves the attempt in the
store, refuting "deletion happens unconditionally on any failure". -/
theorem complete_cleanup_counterexample :
    ((completeAnthropicOAuth cfg0 env0 0 "" dbAttempt).1).success = false ∧
    storeGet (completeAnthropicOAuth cfg0 env0 0 "" dbAttempt).2.1.kv oauthDataKey =
      some (.oauthJson { verifier := "v", state := "st", timestamp := 0 }) := by
  decide

/-- C2 (amended): once the code is non-empty and the stored attempt
parses, every outcome of `completeAnthropicOAuth` — expiry, token-exchange
failure, issuance failure, success — deletes the stored attempt before the
call returns; the missing-code and unparseable-session failures return
early without deleting. -/
theorem complete_cleanup (cfg : OAuthConfig) (env : NetEnv) (now : Int)
    (authCode : String) (db : DB) (d : OAuthData)
    (hcode : authCode ≠ "")
    (hstored : storeGet db.kv oauthDataKey = some (.oauthJson d)) :
    storeGet (completeAnthropicOAuth cfg env now authCode db).2.1.kv oauthDataKey = none :=
  complete_deletes_stored_attempt cfg env now authCode db d hcode hstored

/-- C2 witness: the amended cleanup at a concrete expired attempt. -/
theorem complete_cleanup_witness :
    ("x" ≠ "" ∧ storeGet dbAttempt.kv oauthDataKey =
        some (.oauthJson { verifier := "v", state := "st", timestamp := 0 })) ∧
    storeGet (completeAnthropicOAuth cfg0 env0 700000 "x" dbAttempt).2.1.kv oauthDataKey =
      none :=
  ⟨⟨by decide, by decide⟩,
   complete_cleanup cfg0 env0 700000 "x" dbAttempt
     { verifier := "v", state := "st", timestamp := 0 } (by decide) (by decide)⟩

/-- C3: a non-empty code completed strictly more than 600000 ms after the
stored attempt's creation fails with the session-expired error, deletes
the attempt, performs no network call, leaves the credential store
untouched, and a subsequent status call is unchanged. -/
theorem complete_expired (cfg : OAuthConfig) (env : NetEnv) (now : Int)
    (authCode : String) (db : DB) (d : OAuthData)
    (hcode : authCode ≠ "")
    (hstored : storeGet db.kv oauthDataKey = some (.oauthJson d))
    (hexp : now - d.timestamp > 600000) :
    (completeAnthropicOAuth cfg env now authCode db).1 =
      completeFail "OAuth session expired. Please try again." ∧
    storeGet (completeAnthropicOAuth cfg env now authCode db).2.1.kv oauthDataKey = none ∧
    (completeAnthropicOAuth cfg env now authCode db).2.2 = [] ∧
    (completeAnthropicOAuth cfg env now authCode db).2.1.conn = db.conn ∧
    (checkAnthropicAuthStatus (completeAnthropicOAuth cfg env now authCode db).2.1).1 =
      (checkAnthropicAuthStatus db).1 := by
  rw [complete_expired_branch cfg env now authCode db d hcode hstored hexp]
  exact ⟨rfl, storeGet_delete_self _ _, rfl, rfl, rfl⟩

/-- C3 witness: expiry at a concrete attempt created at time 0 and
completed at 600001 ms. -/
theorem complete_expired_witness :
    ("x" ≠ "" ∧
     storeGet dbAttempt.kv oauthDataKey =
       some (.oauthJson { verifier := "v", state := "st", timestamp := 0 }) ∧
     (600001 : Int) - 0 > 600000) ∧
    ((completeAnthropicOAuth cfg0 env0 600001 "x" dbAttempt).1 =
      completeFail "OAuth session expired. Please try again." ∧
     storeGet (completeAnthropicOAuth cfg0 env0 600001 "x" dbAttempt).2.1.kv oauthDataKey
       = none ∧
     (completeAnthropicOAuth cfg0 env0 600001 "x" dbAttempt).2.2 = [] ∧
     (completeAnthropicOAuth cfg0 env0 600001 "x" dbAttempt).2.1.conn = dbAttempt.conn ∧
     (checkAnthropicAuthStatus (completeAnthropicOAuth cfg0 env0 600001 "x" dbAttempt).2.1).1 =
       (checkAnthropicAuthStatus dbAttempt).1) :=
  ⟨⟨by decide, by decide, by decide⟩,
   complete_expired cfg0 env0 600001 "x" dbAttempt
     { verifier := "v", state := "st", timestamp := 0 } (by decide) (by decide) (by decide)⟩

/-- C4 (counterexample): with no attempt stored, the empty code fails with
the missing-code error, not the session-not-found error — refuting "for
every authCode input". -/
theorem complete_no_session_counterexample :
    ((completeAnthropicOAuth cfg0 env0 0 "" { conn := [], kv := [] }).1).error =
      some "Missing authorization code" ∧
    (completeAnthropicOAuth cfg0 env0 0 "" { conn := [], kv := [] }).1 ≠
      completeFail "OAuth session not found. Please start the authentication process again." := by
  decide

/-- C4 (amended): for every non-empty code, with no attempt stored the
call fails with the session-not-found error and leaves both stores and the
network untouched. -/
theorem complete_no_session (cfg : OAuthConfig) (env : NetEnv) (now : Int)
    (authCode : String) (db : DB)
    (hcode : authCode ≠ "")
    (hnone : storeGet db.kv oauthDataKey = none) :
    (completeAnthropicOAuth cfg env now authCode db).1 =
      completeFail "OAuth session not found. Please start the authentication process again." ∧
    (completeAnthropicOAuth cfg env now authCode db).2.1 = db ∧
    (completeAnthropicOAuth cfg env now authCode db).2.2 = [] := by
  unfold completeAnthropicOAuth
  rw [if_neg hcode, hnone]
  exact ⟨rfl, rfl, rfl⟩

/-- C4 witness: session-not-found on an empty store with code `"x"`. -/
theorem complete_no_session_witness :
    ("x" ≠ "" ∧ storeGet (DB.mk [] []).kv oauthDataKey = none) ∧
    ((completeAnthropicOAuth cfg0 env0 0 "x" { conn := [], kv := [] }).1 =
      completeFail "OAuth session not found. Please start the authentication process again." ∧
     (completeAnthropicOAuth cfg0 env0 0 "x" { conn := [], kv := [] }).2.1 =
       { conn := [], kv := [] } ∧
     (completeAnthropicOAuth cfg0 env0 0 "x" { conn := [], kv := [] }).2.2 = []) :=
  ⟨⟨by decide, by decide⟩,
   complete_no_session cfg0 env0 0 "x" { conn := [], kv := [] } (by decide) (by decide)⟩

/-- C8: logout clears a flow-provisioned credential (empty secret and
metadata, row retained, subsequent status unauthenticated with no
provider-unknown error), is a no-op on any non-flow-provisioned state,
and is idempotent. -/
theorem logout_semantics (db : DB) :
    (flowProvisioned db = true →
      storeGet (logoutAnthropicOAuth db).2.conn "Anthropic" =
        some { apikey := "", google_Oauth := .empty } ∧
      ((checkAnthropicAuthStatus (logoutAnthropicOAuth db).2).1).authenticated = false) ∧
    (flowProvisioned db = false → (logoutAnthropicOAuth db).2 = db) ∧
    (logoutAnthropicOAuth (logoutAnthropicOAuth db).2).2 = (logoutAnthropicOAuth db).2 := by
  refine ⟨?_, logout_of_not_flow db, ?_⟩
  · intro h
    rw [logout_of_flow db h]
    have hget := storeGet_upsert_self db.conn "Anthropic"
      (ConnRow.mk "" MetaStr.empty)
    refine ⟨hget, ?_⟩
    simp [checkAnthropicAuthStatus, statusRead, hget]
  · cases hf : flowProvisioned db with
    | false =>
        rw [logout_of_not_flow db hf]
        exact logout_of_not_flow db hf
    | true =>
        rw [logout_of_flow db hf]
        apply logout_of_not_flow
        unfold flowProvisioned
        rw [storeGet_upsert_self]

/-- C8 witness: logout at a flow-provisioned state and at a
manually-entered state. -/
theorem logout_semantics_witness :
    (flowProvisioned dbFlow = true ∧
     storeGet (logoutAnthropicOAuth dbFlow).2.conn "Anthropic" =
       some { apikey := "", google_Oauth := .empty } ∧
     ((checkAnthropicAuthStatus (logoutAnthropicOAuth dbFlow).2).1).authenticated = false) ∧
    (flowProvisioned dbManual = false ∧
     (logoutAnthropicOAuth dbManual).2 = dbManual) :=
  ⟨⟨by decide, (logout_semantics dbFlow).1 (by decide)⟩,
   ⟨by decide, (logout_semantics dbManual).2.1 (by decide)⟩⟩

/-- C9 (counterexample): a store whose metadata display name equals the
secret makes `checkAnthropicAuthStatus` return that secret as `keyName` —
refuting "no field equals the raw stored secret" over all store states. -/
theorem status_secret_counterexample :
    ((checkAnthropicAuthStatus dbLeak).1).keyName = some "sk-secret" ∧
    (storeGet dbLeak.conn "Anthropic").map (·.apikey) = some "sk-secret" := by
  decide

/-- C9 (amended): status writes nothing; it is unauthenticated exactly
when the Anthropic row is missing or its secret empty; and its result does
not depend on the secret's value — two states differing only in a
non-empty secret yield identical status records. -/
theorem status_read_semantics :
    (∀ db : DB, (checkAnthropicAuthStatus db).2 = db ∧
      ((checkAnthropicAuthStatus db).1).authenticated =
        (match storeGet db.conn "Anthropic" with
         | none => false
         | some row => !(row.apikey == ""))) ∧
    (∀ (c : List (String × ConnRow)) (k : List (String × KVVal)) (g : MetaStr)
       (s1 s2 : String), s1 ≠ "" → s2 ≠ "" →
      (checkAnthropicAuthStatus (DB.mk (storeUpsert c "Anthropic" ⟨s1, g⟩) k)).1 =
      (checkAnthropicAuthStatus (DB.mk (storeUpsert c "Anthropic" ⟨s2, g⟩) k)).1) := by
  constructor
  · intro db
    refine ⟨rfl, ?_⟩
    unfold checkAnthropicAuthStatus statusRead
    split
    · rfl
    · rename_i row heq
      by_cases hk : row.apikey = ""
      · rw [if_pos hk]
        simp [hk]
      · rw [if_neg hk]
        simp [hk]
  · intro c k g s1 s2 h1 h2
    unfold checkAnthropicAuthStatus statusRead
    simp only [storeGet_upsert_self]
    rw [if_neg h1, if_neg h2]

/-- C9 witness: the amended status semantics applied at two concrete
non-empty secrets over the same metadata. -/
theorem status_read_semantics_witness :
    ("sk-a" ≠ "" ∧ "sk-b" ≠ "") ∧
    (checkAnthropicAuthStatus (DB.mk (storeUpsert [] "Anthropic" ⟨"sk-a", .empty⟩) [])).1 =
    (checkAnthropicAuthStatus (DB.mk (storeUpsert [] "Anthropic" ⟨"sk-b", .empty⟩) [])).1 :=
  ⟨⟨by decide, by decide⟩,
   status_read_semantics.2 [] [] .empty "sk-a" "sk-b" (by decide) (by decide)⟩

/-- C1: the happy path. For every configuration, random bytes, initial
state and unexpired completion instant: `start` returns an authorization
URL ending in `code_challenge_method=S256`, and `complete "code123"`
against the scenario's mocked endpoints succeeds with
`apiKey = "sk-abc"`, `keyName = "n"`, persists the Anthropic credential
with that secret, after which status reports authenticated. -/
theorem anthropic_happy_path (cfg : OAuthConfig) (pkceBytes stateBytes : List Nat)
    (stat : String) (t0 t1 : Int) (db0 : DB)
    (hfresh : t1 - t0 ≤ 600000) :
    (∃ pre, (startAnthropicOAuth cfg pkceBytes stateBytes t0 db0).1.authUrl =
       pre ++ "code_challenge_method=S256") ∧
    (completeAnthropicOAuth cfg (happyEnv stat) t1 "code123"
        (startAnthropicOAuth cfg pkceBytes stateBytes t0 db0).2).1 =
      { success := true, apiKey := some "sk-abc", keyName := some "n", error := none } ∧
    storeGet (completeAnthropicOAuth cfg (happyEnv stat) t1 "code123"
        (startAnthropicOAuth cfg pkceBytes stateBytes t0 db0).2).2.1.conn "Anthropic" =
      some { apikey := "sk-abc"
             google_Oauth := .jsonMeta
               { mtype := some "oauth_generated", key_id := some "1", key_name := some "n",
                 created_at := some "2024-01-01", hint := some "sk-...c" } } ∧
    ((checkAnthropicAuthStatus (completeAnthropicOAuth cfg (happyEnv stat) t1 "code123"
        (startAnthropicOAuth cfg pkceBytes stateBytes t0 db0).2).2.1).1).authenticated =
      true := by
  have hstored : storeGet (startAnthropicOAuth cfg pkceBytes stateBytes t0 db0).2.kv
      oauthDataKey = some (.oauthJson
        { verifier := (generatePKCE pkceBytes).verifier,
          state := generateState stateBytes, timestamp := t0 }) :=
    storeGet_upsert_self db0.kv oauthDataKey _
  have hrun := complete_success_branch cfg (happyEnv stat) t1 "code123"
    (startAnthropicOAuth cfg pkceBytes stateBytes t0 db0).2
    { verifier := (generatePKCE pkceBytes).verifier,
      state := generateState stateBytes, timestamp := t0 }
    { access_token := "tok", refresh_token := none, expires_in := 3600 }
    { raw_key := "sk-abc", id := "1", name := "n", created_at := "2024-01-01",
      key_hint := "sk-...c", status := stat }
    (by decide) hstored (by simp only; omega) rfl rfl
  refine ⟨buildAuthUrl_suffix cfg _ _, ?_, ?_, ?_⟩
  · rw [hrun]
  · rw [hrun]
    exact storeGet_upsert_self _ _ _
  · rw [hrun]
    simp [checkAnthropicAuthStatus, statusRead, storeGet_upsert_self]

/-- C1 witness: the happy path at a concrete configuration, zero random
bytes, and immediate completion. -/
theorem anthropic_happy_path_witness :
    ((0 : Int) - 0 ≤ 600000) ∧
    ((checkAnthropicAuthStatus (completeAnthropicOAuth cfg0 (happyEnv "active") 0 "code123"
        (startAnthropicOAuth cfg0 (List.replicate 32 0) (List.replicate 32 1) 0
          { conn := [], kv := [] }).2).2.1).1).authenticated = true :=
  ⟨by decide,
   (anthropic_happy_path cfg0 (List.replicate 32 0) (List.replicate 32 1) "active" 0 0
     { conn := [], kv := [] } (by decide)).2.2.2⟩

/-- C10: when the Gemini service already reports authenticated,
`startGeminiOAuthLogin` returns success with the "Already authenticated"
message and no auth URL, does not call `authWithWeb`, and registers
nothing in the pending-promise map. -/
theorem gemini_start_already_authenticated (svc : GeminiSvc) (m : List (String × Nat))
    (h : svc.isAuthenticated = .ok true) :
    (startGeminiOAuthLogin svc m).1 =
      { success := true, authUrl := none, message := some "Already authenticated",
        error := none } ∧
    (startGeminiOAuthLogin svc m).2.1 = m ∧
    GeminiCall.authWithWebCall ∉ (startGeminiOAuthLogin svc m).2.2 := by
  simp [startGeminiOAuthLogin, h]

/-- C5 (counterexample): for `"A#B#C"` the token request carries state
`"B"` — the portion between the first and second `#` — not the remainder
`"B#C"` after the first `#` as the claim states. -/
theorem composite_code_counterexample :
    (completeAnthropicOAuth cfg0 env0 0 "A#B#C" dbAttempt).2.2 =
      [.tokenCall
        { grant_type := "authorization_code", code := "A",
          redirect_uri := cfg0.redirectUri, client_id := cfg0.clientId,
          code_verifier := "v", state := "B" }] ∧
    ("B" : String) ≠ "B#C" := by
  decide

/-- C5 (amended): for every code containing `#`, the token request's code
is the part before the first `#` and its state is the part between the
first and second `#` (the destructured second component of the split),
falling back to the stored attempt's state when that part is empty. -/
theorem composite_code_split (cfg : OAuthConfig) (env : NetEnv) (now : Int)
    (authCode : String) (db : DB) (d : OAuthData)
    (hstored : storeGet db.kv oauthDataKey = some (.oauthJson d))
    (hfresh : ¬ now - d.timestamp > 600000)
    (hhash : '#' ∈ authCode.data) :
    (completeAnthropicOAuth cfg env now authCode db).2.2.head? = some (.tokenCall
      { grant_type := "authorization_code"
        code := String.mk (authCode.data.takeWhile (fun c => c != '#'))
        redirect_uri := cfg.redirectUri
        client_id := cfg.clientId
        code_verifier := d.verifier
        state :=
          if String.mk (((authCode.data.dropWhile (fun c => c != '#')).drop 1).takeWhile
              (fun c => c != '#')) = "" then d.state
          else String.mk (((authCode.data.dropWhile (fun c => c != '#')).drop 1).takeWhile
              (fun c => c != '#')) }) := by
  have hcode : authCode ≠ "" := by
    intro he
    rw [he] at hhash
    simp at hhash
  have hhead : (splitHash authCode).headD "" =
      String.mk (authCode.data.takeWhile (fun c => c != '#')) := splitHash_headD authCode
  have hsecond : (splitHash authCode)[1]? =
      some (String.mk (((authCode.data.dropWhile (fun c => c != '#')).drop 1).takeWhile
        (fun c => c != '#'))) := by
    rw [splitHash_second, if_pos hhash]
  unfold completeAnthropicOAuth
  rw [if_neg hcode, hstored]
  simp only [parseOAuthData]
  rw [if_neg hfresh, hhead, hsecond]
  simp only [jsOrElse]
  split
  · simp
  · split
    · simp
    · simp

/-- C5 witness: the amended split law at the concrete composite code
`"A#B#C"` against the stored attempt. -/
theorem composite_code_split_witness :
    (storeGet dbAttempt.kv oauthDataKey =
       some (.oauthJson { verifier := "v", state := "st", timestamp := 0 }) ∧
     ¬ (0 : Int) - 0 > 600000 ∧
     '#' ∈ ("A#B#C" : String).data) ∧
    (completeAnthropicOAuth cfg0 env0 0 "A#B#C" dbAttempt).2.2.head? = some (.tokenCall
      { grant_type := "authorization_code"
        code := String.mk (("A#B#C" : String).data.takeWhile (fun c => c != '#'))
        redirect_uri := cfg0.redirectUri
        client_id := cfg0.clientId
        code_verifier := "v"
        state :=
          if String.mk (((("A#B#C" : String).data.dropWhile (fun c => c != '#')).drop 1).takeWhile
              (fun c => c != '#')) = "" then "st"
          else String.mk (((("A#B#C" : String).data.dropWhile (fun c => c != '#')).drop 1).takeWhile
              (fun c => c != '#')) }) :=
  ⟨⟨by decide, by decide, by decide⟩,
   composite_code_split cfg0 env0 0 "A#B#C" dbAttempt
     { verifier := "v", state := "st", timestamp := 0 } (by decide) (by decide) (by decide)⟩

/-- C6 (counterexample): the source also sets `code=true`, a query
parameter outside the seven the claim enumerates — refuting "with no
other query parameters". -/
theorem authorization_url_params_counterexample :
    ("code", "true") ∈ authParams cfg0 "CH" "ST" ∧
    "code" ∉ ["code_challenge", "code_challenge_method", "state", "redirect_uri",
              "scope", "response_type", "client_id"] := by
  decide

/-- C6 (amended): the authorization URL's query parameters are exactly the
seven enumerated ones plus `code=true` — same membership in either order,
names pairwise distinct — and the URL serializes them form-encoded after
`?`. -/
theorem authorization_url_params (cfg : OAuthConfig) (challenge st : String) :
    ((authParams cfg challenge st).map Prod.fst =
      ["code", "client_id", "response_type", "redirect_uri", "scope", "state",
       "code_challenge", "code_challenge_method"]) ∧
    (∀ kv, kv ∈ authParams cfg challenge st ↔
      kv ∈ [("code_challenge", challenge), ("code_challenge_method", "S256"), ("state", st),
            ("redirect_uri", cfg.redirectUri), ("scope", String.intercalate " " cfg.scopes),
            ("response_type", "code"), ("client_id", cfg.clientId), ("code", "true")]) ∧
    buildAuthUrl cfg challenge st =
      cfg.authorizeUrl ++ "?" ++ serializeParams (authParams cfg challenge st) := by
  refine ⟨rfl, ?_, rfl⟩
  intro kv
  constructor
  · intro h
    simp only [authParams, List.mem_cons, List.not_mem_nil, or_false] at h
    simp only [List.mem_cons, List.not_mem_nil, or_false]
    tauto
  · intro h
    simp only [List.mem_cons, List.not_mem_nil, or_false] at h
    simp only [authParams, List.mem_cons, List.not_mem_nil, or_false]
    tauto

/-- C7: the PKCE pair — the verifier is the unpadded URL-safe base64 of
the 32 random bytes (43 characters, all in the URL-safe alphabet, no `=`),
and the challenge is the unpadded URL-safe base64 of the SHA-256 of the
verifier string (again 43 URL-safe characters, no `=`). -/
theorem generatePKCE_spec (randomBytes : List Nat)
    (hlen : randomBytes.length = 32) (_hbytes : ∀ b ∈ randomBytes, b < 256) :
    (generatePKCE randomBytes).verifier = base64urlNoPad randomBytes ∧
    (generatePKCE randomBytes).challenge =
      base64urlNoPad (sha256Bytes (strUtf8 (generatePKCE randomBytes).verifier)) ∧
    (generatePKCE randomBytes).verifier.length = 43 ∧
    (generatePKCE randomBytes).challenge.length = 43 ∧
    (∀ c ∈ (generatePKCE randomBytes).verifier.data, c ∈ base64urlAlphabet) ∧
    '=' ∉ (generatePKCE randomBytes).verifier.data ∧
    (∀ c ∈ (generatePKCE randomBytes).challenge.data, c ∈ base64urlAlphabet) ∧
    '=' ∉ (generatePKCE randomBytes).challenge.data := by
  have hvlen : (base64urlNoPad randomBytes).length = 43 := by
    rw [base64urlNoPad, String.length_mk, base64urlChunks_length, hlen]
  have hclen : (base64urlNoPad (sha256Bytes (strUtf8 (base64urlNoPad randomBytes)))).length
      = 43 := by
    rw [base64urlNoPad, String.length_mk, base64urlChunks_length, sha256Bytes_length]
  refine ⟨rfl, rfl, hvlen, hclen, ?_, ?_, ?_, ?_⟩
  · exact base64urlChunks_mem randomBytes
  · intro hmem
    have := base64urlChunks_mem randomBytes '=' hmem
    revert this
    decide
  · exact base64urlChunks_mem _
  · intro hmem
    have := base64urlChunks_mem _ '=' hmem
    revert this
    decide

/-- C7 witness: the PKCE law at 32 zero bytes. -/
theorem generatePKCE_spec_witness :
    ((List.replicate 32 0).length = 32 ∧ ∀ b ∈ List.replicate 32 (0 : Nat), b < 256) ∧
    (generatePKCE (List.replicate 32 0)).verifier = base64urlNoPad (List.replicate 32 0) ∧
    (generatePKCE (List.replicate 32 0)).challenge =
      base64urlNoPad (sha256Bytes (strUtf8 (generatePKCE (List.replicate 32 0)).verifier)) :=
  ⟨⟨by decide, by decide⟩,
   (generatePKCE_spec (List.replicate 32 0) (by decide) (by decide)).1,
   (generatePKCE_spec (List.replicate 32 0) (by decide) (by decide)).2.1⟩

/-- C10 witness: the short-circuit at a concrete authenticated service. -/
theorem gemini_start_already_authenticated_witness :
    (GeminiSvc.mk (.ok true) (.ok { authUrl := "u", promiseId := 0 })).isAuthenticated =
      .ok true ∧
    ((startGeminiOAuthLogin ⟨.ok true, .ok { authUrl := "u", promiseId := 0 }⟩ []).1 =
      { success := true, authUrl := none, message := some "Already authenticated",
        error := none } ∧
     (startGeminiOAuthLogin ⟨.ok true, .ok { authUrl := "u", promiseId := 0 }⟩ []).2.1 = [] ∧
     GeminiCall.authWithWebCall ∉
       (startGeminiOAuthLogin ⟨.ok true, .ok { authUrl := "u", promiseId := 0 }⟩ []).2.2) :=
  ⟨rfl, gemini_start_already_authenticated ⟨.ok true, .ok { authUrl := "u", promiseId := 0 }⟩ [] rfl⟩

end ESim
